import Mathlib

/-!
Verification of the seery push-to-talk dictation utility.

The development shallowly embeds the program's state machines:

* `Seery.Mic`      — the capture session of `src/hooks/useMicrophone.ts`
  (hook state: `stream`, `recordingState`, `error`, `audioChunks`,
  `mediaRecorderRef`), with the platform `MediaRecorder` modelled by its
  observable state (`inactive` / `recording` / `paused`).  React state
  updates are modelled as immediate field updates; the asynchronous
  `onstop` / `onerror` / `ondataavailable` platform callbacks are separate
  events.
* `Seery.Renderer` — the legacy renderer flow of `src/renderer.ts`
  (`startRecording`, the unconditional `ondataavailable` push, and
  `handleRecordingStop` with its `< 1000` byte guard and `finally` clear).
* `Seery.Notch`    — the indicator morph logic of the Notch component
  (`morphState` with its `isMorphing` debounce and the two nested
  300 ms timeouts).
* `Seery.Main`     — the `transcribe-audio` IPC handler of the Electron
  main process, with the filesystem modelled as the list of existing file
  paths, so that cleanup of the temporary upload file can be stated.

Audio chunks are modelled by their byte sizes (`Nat`): every verified
property only looks at sizes, counts and the order of the chunks.
-/

namespace Seery

namespace Mic

/-- The lifecycle state of the capture session, from
`type RecordingState = "idle" | "recording" | "stopped" | "error"`. -/
inductive RecState where
  | idle
  | recording
  | stopped
  | error
  deriving DecidableEq, Repr

/-- The observable state of a platform `MediaRecorder` instance
(`MediaRecorder.state`). -/
inductive RecorderState where
  | inactive
  | recording
  | paused
  deriving DecidableEq, Repr

/-- The state held by `useMicrophoneRecorder`.  `stream` records whether the
microphone stream was acquired (`setStream` runs once in the mount effect
and the handle is never replaced afterwards); `errorSet` whether the
`error` state field is non-null; `audioChunks` the buffered segment sizes;
`current` the recorder in `mediaRecorderRef.current`.  `discardedActive`
is ghost state for the invariant "at most one active recorder": it counts
the recorders that a later `startRecording` displaced from the ref while
they were still in the `recording` state (nothing in the program ever
stops a displaced recorder, so such a recorder records forever). -/
structure Session where
  stream : Bool
  recordingState : RecState
  errorSet : Bool
  audioChunks : List Nat
  current : Option RecorderState
  discardedActive : Nat
  deriving DecidableEq, Repr

/-- The number of recorders of this session currently in the `recording`
state: the one in the ref, if it records, plus the displaced ones that
still record. -/
def activeRecorders (s : Session) : Nat :=
  (if s.current = some RecorderState.recording then 1 else 0) +
    s.discardedActive

/-- `startRecording` (useMicrophone.ts lines 105-175).  `recorderOk` tells
whether `new MediaRecorder(stream, options)` succeeds; on success the new
recorder is started (so its state is `recording`) and stored in the ref,
displacing the previous recorder; on failure the ref is left untouched and
the session enters the error state. -/
def startRecording (recorderOk : Bool) (s : Session) : Session :=
  if s.stream = false then
    { s with errorSet := true, recordingState := .error }
  else if s.recordingState = .recording then
    s
  else if recorderOk then
    { s with audioChunks := [], errorSet := false,
             current := some .recording,
             discardedActive := s.discardedActive +
               (if s.current = some RecorderState.recording then 1 else 0),
             recordingState := .recording }
  else
    { s with audioChunks := [], errorSet := true, recordingState := .error }

/-- The `mediaRecorder.ondataavailable` handler (useMicrophone.ts lines
133-139): `if (event.data.size > 0) setAudioChunks(prev => [...prev,
event.data])`.  Note that the handler performs no check of
`recordingState`. -/
def dataAvailable (size : Nat) (s : Session) : Session :=
  if 0 < size then { s with audioChunks := s.audioChunks ++ [size] } else s

/-- The `mediaRecorder.onstop` handler, together with the platform fact
that `stop` fires exactly when the recorder it belongs to has reached the
`inactive` state: the handler sets `recordingState := "stopped"`. -/
def recorderStopped (s : Session) : Session :=
  { s with recordingState := .stopped,
           current := s.current.map fun _ => .inactive }

/-- The `mediaRecorder.onerror` handler, together with the platform fact
that a `MediaRecorder` that fires `error` has stopped recording: the
handler records the error and forces `recordingState := "error"`. -/
def recorderErrored (s : Session) : Session :=
  { s with errorSet := true, recordingState := .error,
           current := s.current.map fun _ => .inactive }

/-- `stopRecording` (useMicrophone.ts lines 178-221).  Calling
`MediaRecorder.stop()` on a recorder whose state is neither `inactive` nor
`paused` (the guard the code checks) synchronously moves it to `inactive`
and cannot throw, so the code's catch branch is unreachable; the remaining
branches are the code's logic-error branch, which is only reached with
`recordingState = "recording"` and therefore forces the error state. -/
def stopRecording (s : Session) : Session :=
  if s.recordingState ≠ .recording then
    s
  else
    match s.current with
    | some r =>
        if r ≠ .inactive ∧ r ≠ .paused then
          { s with current := some .inactive }
        else
          { s with errorSet := true, recordingState := .error }
    | none =>
        { s with errorSet := true, recordingState := .error }

/-- `getRecordedBlob` (useMicrophone.ts lines 224-251).  `blobOk` tells
whether `new Blob(audioChunks, ...)` succeeds; the blob is modelled by the
list of chunk sizes it concatenates.  Returns the (possibly updated)
session and the blob, `none` standing for the `null` returns. -/
def getRecordedBlob (blobOk : Bool) (s : Session) :
    Session × Option (List Nat) :=
  if s.recordingState ≠ .stopped ∨ s.audioChunks = [] then
    (s, none)
  else if blobOk then
    (s, some s.audioChunks)
  else
    ({ s with errorSet := true, recordingState := .error }, none)

/-- The events that can hit a live session: the three control calls and
the three asynchronous platform callbacks. -/
inductive Event where
  | start (recorderOk : Bool)
  | stop
  | data (size : Nat)
  | recStopped
  | recErrored
  | getBlob (blobOk : Bool)
  deriving DecidableEq, Repr

/-- One step of the session under an event. -/
def step (s : Session) : Event → Session
  | .start ok => startRecording ok s
  | .stop => stopRecording s
  | .data n => dataAvailable n s
  | .recStopped => recorderStopped s
  | .recErrored => recorderErrored s
  | .getBlob ok => (getRecordedBlob ok s).1

/-- Run a list of events from a session state. -/
def run (s : Session) (evs : List Event) : Session :=
  evs.foldl step s

/-- The session state right after the mount effect acquired the microphone
stream (`setStream(mediaStream); setRecordingState("stopped")`). -/
def initSession : Session :=
  { stream := true, recordingState := .stopped, errorSet := false,
    audioChunks := [], current := none, discardedActive := 0 }

/-- The session state when the mount effect failed to acquire a stream
(`setStream(null); setRecordingState("error")`). -/
def initFailedSession : Session :=
  { stream := false, recordingState := .error, errorSet := true,
    audioChunks := [], current := none, discardedActive := 0 }

/-- The inductive invariant behind "at most one active recorder": at most
one recorder records, none records unless the session state is `recording`
and the stream was acquired, and no displaced recorder records. -/
def Inv (s : Session) : Prop :=
  activeRecorders s ≤ 1 ∧
  (s.recordingState ≠ .recording → activeRecorders s = 0) ∧
  (s.stream = false → activeRecorders s = 0) ∧
  s.discardedActive = 0

instance (s : Session) : Decidable (Inv s) := by
  unfold Inv; infer_instance

theorem inv_init : Inv initSession := by decide

theorem inv_initFailed : Inv initFailedSession := by decide

theorem inv_step (s : Session) (e : Event) (hs : Inv s) : Inv (step s e) := by
  obtain ⟨h1, h2, h3, h4⟩ := hs
  obtain ⟨st, rs, es, ch, cur, dac⟩ := s
  simp only [Inv, activeRecorders] at h1 h2 h3 h4 ⊢
  subst h4
  cases e with
  | start ok =>
      simp only [step, startRecording]
      by_cases hst : st = false
      · simp only [hst]
        simp_all
      · simp only [hst]
        by_cases hrs : rs = RecState.recording
        · simp_all
        · by_cases hcur : cur = some RecorderState.recording
          · simp_all
          · cases ok <;> simp_all
  | stop =>
      simp only [step, stopRecording]
      by_cases hrs : rs = RecState.recording
      · cases cur with
        | none => simp_all
        | some r => cases r <;> simp_all
      · simp_all
  | data n =>
      simp only [step, dataAvailable]
      by_cases hn : 0 < n <;> simp_all
  | recStopped =>
      simp only [step, recorderStopped]
      cases cur <;> simp_all
  | recErrored =>
      simp only [step, recorderErrored]
      cases cur <;> simp_all
  | getBlob ok =>
      simp only [step, getRecordedBlob]
      by_cases hgb : rs ≠ RecState.stopped ∨ ch = []
      · simp_all
      · push_neg at hgb
        cases ok <;> simp_all

theorem inv_run (s : Session) (evs : List Event) (hs : Inv s) :
    Inv (run s evs) := by
  induction evs generalizing s with
  | nil => exact hs
  | cons e evs ih => exact ih (step s e) (inv_step s e hs)

/-- C4: for every sequence of events (start/stop calls and platform
callbacks) applied to a capture session — whether the mount-time stream
acquisition succeeded or failed — the session never has two concurrently
active recorders: at every point the number of its recorders in the
`recording` state is at most one. -/
theorem atMostOneActiveRecorder (evs : List Event) :
    activeRecorders (run initSession evs) ≤ 1 ∧
    activeRecorders (run initFailedSession evs) ≤ 1 :=
  ⟨(inv_run initSession evs inv_init).1,
   (inv_run initFailedSession evs inv_initFailed).1⟩

/-- C5 counterexample: a reachable session that is not recording (it is
`stopped`, after a start, a stop call and the recorder's stop callback) on
which a data-available event of 4000 bytes grows the buffer from length 0
to length 1 — the handler appends without checking the state, so the claim
"append while state ≠ recording leaves the buffer unchanged" is false. -/
theorem appendWhileStoppedMutatesBuffer :
    (run initSession [.start true, .stop, .recStopped]).recordingState
      ≠ RecState.recording ∧
    (run initSession [.start true, .stop, .recStopped]).audioChunks.length
      = 0 ∧
    (run initSession
        [.start true, .stop, .recStopped, .data 4000]).audioChunks.length
      = 1 := by
  decide

/-- C5 amended: the `ondataavailable` handler performs no state check.  A
data event carrying a nonempty segment appends it to the buffer whatever
the session state, and only an empty-data event leaves the buffer
unchanged; no error is raised and the lifecycle state is untouched either
way. -/
theorem appendIgnoresSessionState (s : Session) (n : Nat) :
    (0 < n → (dataAvailable n s).audioChunks = s.audioChunks ++ [n]) ∧
    (n = 0 → dataAvailable n s = s) ∧
    (dataAvailable n s).errorSet = s.errorSet ∧
    (dataAvailable n s).recordingState = s.recordingState := by
  refine ⟨fun h => ?_, fun h => ?_, ?_, ?_⟩
  · simp [dataAvailable, h]
  · simp [dataAvailable, h]
  · by_cases h : 0 < n <;> simp [dataAvailable, h]
  · by_cases h : 0 < n <;> simp [dataAvailable, h]

theorem appendIgnoresSessionState_witness :
    (dataAvailable 4000 initSession).audioChunks
      = initSession.audioChunks ++ [4000] :=
  (appendIgnoresSessionState initSession 4000).1 (by decide)

/-- C6: calling `startRecording` while the session is already recording
(and the stream handle exists, as it must for recording to have begun) is
a pure no-op: the state stays `recording` and the buffered segments are
not cleared — in fact the whole session is unchanged. -/
theorem startWhileRecordingIsNoOp (ok : Bool) (s : Session)
    (hstream : s.stream = true) (hrec : s.recordingState = .recording) :
    startRecording ok s = s := by
  simp [startRecording, hstream, hrec]

theorem startWhileRecordingIsNoOp_witness :
    startRecording true (run initSession [Event.start true])
      = run initSession [Event.start true] :=
  startWhileRecordingIsNoOp true (run initSession [Event.start true])
    (by decide) (by decide)

/-- C7: with a valid stream and state not `recording` (i.e. in
{idle, stopped, error}), a successful `startRecording` clears the buffered
segments and moves the session to `recording`; without a stream,
`startRecording` instead fails into the error state with the error field
set. -/
theorem startRecordingSpec (ok : Bool) (s : Session) :
    (s.stream = true → s.recordingState ≠ .recording →
      (startRecording true s).audioChunks = [] ∧
      (startRecording true s).recordingState = .recording) ∧
    (s.stream = false →
      (startRecording ok s).recordingState = .error ∧
      (startRecording ok s).errorSet = true) := by
  constructor
  · intro hstream hrec
    simp [startRecording, hstream, hrec]
  · intro hstream
    simp [startRecording, hstream]

theorem startRecordingSpec_witness :
    ((startRecording true initSession).audioChunks = [] ∧
      (startRecording true initSession).recordingState
        = RecState.recording) ∧
    ((startRecording true initFailedSession).recordingState
        = RecState.error ∧
      (startRecording true initFailedSession).errorSet = true) :=
  ⟨(startRecordingSpec true initSession).1 rfl (by decide),
   (startRecordingSpec true initFailedSession).2 rfl⟩

/-- A stopped session holding one recorded chunk, used to witness the
non-null branch of `getRecordedBlob`. -/
def stoppedWithChunk : Session :=
  { stream := true, recordingState := .stopped, errorSet := false,
    audioChunks := [4000], current := some .inactive,
    discardedActive := 0 }

/-- C10: `getRecordedBlob` returns `null` whenever the state is not
`stopped` or no chunk was collected, without raising and without touching
the session (in particular the buffer); and a non-null blob is returned
only when the state is `stopped` and at least one chunk exists, in which
case it is exactly the buffered chunk sequence. -/
theorem getRecordedBlobSpec (ok : Bool) (s : Session) :
    ((s.recordingState ≠ .stopped ∨ s.audioChunks = []) →
      getRecordedBlob ok s = (s, none)) ∧
    (∀ b, (getRecordedBlob ok s).2 = some b →
      s.recordingState = .stopped ∧ s.audioChunks ≠ [] ∧
        b = s.audioChunks) := by
  constructor
  · intro h
    simp [getRecordedBlob, h]
  · intro b hb
    by_cases h : s.recordingState ≠ .stopped ∨ s.audioChunks = []
    · simp [getRecordedBlob, h] at hb
    · push_neg at h
      obtain ⟨h1, h2⟩ := h
      cases ok <;> simp_all [getRecordedBlob]

theorem getRecordedBlobSpec_witness :
    getRecordedBlob true initFailedSession = (initFailedSession, none) ∧
    (stoppedWithChunk.recordingState = RecState.stopped ∧
      stoppedWithChunk.audioChunks ≠ [] ∧
      stoppedWithChunk.audioChunks = stoppedWithChunk.audioChunks) :=
  ⟨(getRecordedBlobSpec true initFailedSession).1 (Or.inl (by decide)),
   (getRecordedBlobSpec true stoppedWithChunk).2
     stoppedWithChunk.audioChunks rfl⟩

end Mic

namespace Renderer

/-- The module-level state of `src/renderer.ts` that the recording flow
reads and writes: `isRecording` and `audioChunks` (chunk byte sizes). -/
structure RSession where
  isRecording : Bool
  audioChunks : List Nat
  deriving DecidableEq, Repr

/-- The outcome of one run of `handleRecordingStop`, distinguishing the
early "no audio" return, a delivered transcription (typed or not), an
empty/invalid transcription, and a caught error. -/
inductive StopOutcome where
  | noAudio
  | typed (text : String)
  | typingFailed (text : String)
  | emptyResult
  | errorCaught (msg : String)
  deriving DecidableEq, Repr

/-- The result of `handleRecordingStop`: the new module state, the list of
payload sizes passed to `transcribeAudio` (the uploads performed), and the
outcome. -/
structure StopResult where
  session : RSession
  uploads : List Nat
  outcome : StopOutcome
  deriving DecidableEq, Repr

/-- `startRecording` (renderer.ts lines 57-79): creates a fresh recorder,
resets `audioChunks = []`, starts it, and sets `isRecording = true`. -/
def startRecording (s : RSession) : RSession :=
  { s with audioChunks := [], isRecording := true }

/-- The renderer's `mediaRecorder.ondataavailable` (renderer.ts lines
68-70): `audioChunks.push(event.data)` — unconditional. -/
def dataAvailable (size : Nat) (s : RSession) : RSession :=
  { s with audioChunks := s.audioChunks ++ [size] }

/-- `handleRecordingStop` (renderer.ts lines 155-190).  The blob built
from the chunks has size equal to the sum of the chunk sizes; below 1000
bytes the function warns and returns without uploading; otherwise it
uploads once (`transcribe` models the `transcribeAudio` IPC round trip on
the payload size) and, on a nonempty text result, awaits the typing
simulation (`typingOk` models its reported result; the preload bridge does
not actually expose `simulateTyping` — per the spec an unresolved
integration).  The `finally` clause clears `audioChunks` on every path,
early return and caught error included; `isRecording` is never touched. -/
def handleRecordingStop (transcribe : Nat → Except String String)
    (typingOk : Bool) (s : RSession) : StopResult :=
  if s.audioChunks.sum < 1000 then
    ⟨{ s with audioChunks := [] }, [], .noAudio⟩
  else
    match transcribe s.audioChunks.sum with
    | .error msg =>
        ⟨{ s with audioChunks := [] }, [s.audioChunks.sum],
         .errorCaught msg⟩
    | .ok text =>
        if text = "" then
          ⟨{ s with audioChunks := [] }, [s.audioChunks.sum],
           .emptyResult⟩
        else if typingOk then
          ⟨{ s with audioChunks := [] }, [s.audioChunks.sum], .typed text⟩
        else
          ⟨{ s with audioChunks := [] }, [s.audioChunks.sum],
           .typingFailed text⟩

theorem handleRecordingStop_session
    (transcribe : Nat → Except String String) (typingOk : Bool)
    (s : RSession) :
    (handleRecordingStop transcribe typingOk s).session
      = { s with audioChunks := [] } := by
  unfold handleRecordingStop
  split
  · rfl
  · split
    · rfl
    · split
      · rfl
      · split <;> rfl

theorem handleRecordingStop_uploads
    (transcribe : Nat → Except String String) (typingOk : Bool)
    (s : RSession) :
    (handleRecordingStop transcribe typingOk s).uploads
      = if s.audioChunks.sum < 1000 then [] else [s.audioChunks.sum] := by
  unfold handleRecordingStop
  split
  next h => simp [h]
  next h =>
    split
    · simp [h]
    · split
      · simp [h]
      · split <;> simp [h]

/-- C2: whenever the buffered audio sums to fewer than 1000 bytes (byte
length 0 included), `handleRecordingStop` performs no upload at all and
returns the dedicated "no audio" outcome (the warn-and-return path)
rather than silently doing nothing; the chunks are still cleared by the
`finally` clause. -/
theorem smallBufferNeverUploads (transcribe : Nat → Except String String)
    (typingOk : Bool) (s : RSession) (h : s.audioChunks.sum < 1000) :
    handleRecordingStop transcribe typingOk s
      = ⟨{ s with audioChunks := [] }, [], .noAudio⟩ := by
  simp [handleRecordingStop, h]

theorem smallBufferNeverUploads_witness :
    handleRecordingStop (fun _ => Except.ok "hi") true ⟨false, []⟩
      = ⟨⟨false, []⟩, [], StopOutcome.noAudio⟩ :=
  smallBufferNeverUploads (fun _ => Except.ok "hi") true ⟨false, []⟩
    (by decide)

theorem dataAvailable_foldl (s : RSession) (segs : List Nat) :
    (segs.foldl (fun t n => dataAvailable n t) s).audioChunks
      = s.audioChunks ++ segs := by
  induction segs generalizing s with
  | nil => simp
  | cons a l ih =>
      rw [List.foldl_cons, ih]
      simp [dataAvailable]

/-- C3: the buffer handed to transcription after a stop is exactly the
segments delivered between the start and the stop, in delivery order; in
particular after a start followed by three segments of 4000 bytes each,
the stop handler performs exactly one upload, with a 12000-byte
payload. -/
theorem bufferIsDeliveredSegments (s0 : RSession) (segs : List Nat)
    (transcribe : Nat → Except String String) (typingOk : Bool) :
    (segs.foldl (fun t n => dataAvailable n t)
        (startRecording s0)).audioChunks = segs ∧
    (handleRecordingStop transcribe typingOk
        ([4000, 4000, 4000].foldl (fun t n => dataAvailable n t)
          (startRecording s0))).uploads = [12000] := by
  have hbase : (startRecording s0).audioChunks = [] := rfl
  constructor
  · rw [dataAvailable_foldl, hbase]
    simp
  · rw [handleRecordingStop_uploads, dataAvailable_foldl, hbase]
    decide

/-- C9: a failed transcription does not disturb the recording flow:
whatever module state `handleRecordingStop` runs in, when the upload path
is taken and the transport fails, the outcome is the per-call caught
error, `isRecording` is exactly what it was before, and the chunk buffer
is left empty — so the next toggle starts a fresh recording with no stale
audio carried over. -/
theorem failedTranscribeKeepsSession (s : RSession) (msg : String)
    (typingOk : Bool) :
    (1000 ≤ s.audioChunks.sum →
      (handleRecordingStop (fun _ => Except.error msg) typingOk s).outcome
        = .errorCaught msg) ∧
    (handleRecordingStop (fun _ => Except.error msg) typingOk
        s).session.isRecording = s.isRecording ∧
    (handleRecordingStop (fun _ => Except.error msg) typingOk
        s).session.audioChunks = [] := by
  refine ⟨fun h => ?_, ?_, ?_⟩
  · unfold handleRecordingStop
    rw [if_neg (by omega)]
  · rw [handleRecordingStop_session]
  · rw [handleRecordingStop_session]

theorem failedTranscribeKeepsSession_witness :
    (handleRecordingStop (fun _ => Except.error "network") true
        ⟨false, [1200]⟩).outcome = StopOutcome.errorCaught "network" :=
  (failedTranscribeKeepsSession ⟨false, [1200]⟩ "network" true).1
    (by decide)

end Renderer

namespace Notch

/-- The five indicator states of the Notch component. -/
inductive NotchState where
  | inactive
  | dormant
  | prompted
  | thinking
  | answering
  deriving DecidableEq, Repr

/-- Where the component is inside a morph: `steady` (isMorphing is false),
`exitAnim t` (the outer 300 ms timeout is pending, the state will become
`t`), or `entryAnim` (the state committed, the inner 300 ms timeout that
resets `isMorphing` is pending). -/
inductive MorphPhase where
  | steady
  | exitAnim (target : NotchState)
  | entryAnim
  deriving DecidableEq, Repr

/-- The component state: `currentState` plus the morph phase encoding
`isMorphing` and the pending timeouts. -/
structure NotchSM where
  currentState : NotchState
  phase : MorphPhase
  deriving DecidableEq, Repr

/-- The `isMorphing` boolean of the component. -/
def isMorphing (s : NotchSM) : Bool :=
  s.phase ≠ .steady

/-- `morphState` (Notch component lines 21-30): when the requested state
differs from the current one and no morph is in flight, set `isMorphing`
and schedule the commit; otherwise do nothing. -/
def morphState (n : NotchState) (s : NotchSM) : NotchSM :=
  if s.currentState ≠ n ∧ isMorphing s = false then
    { s with phase := .exitAnim n }
  else
    s

/-- One pending timeout firing: the outer timeout commits the new state
and schedules the inner one; the inner timeout resets `isMorphing`. -/
def timerFire (s : NotchSM) : NotchSM :=
  match s.phase with
  | .steady => s
  | .exitAnim n => { currentState := n, phase := .entryAnim }
  | .entryAnim => { s with phase := .steady }

/-- C8: a transition requested while a morph is in flight is dropped
(first in flight wins, nothing is queued): `morphState` is the identity
whenever `isMorphing` is true; and concretely, from `dormant`, requesting
`thinking` and then immediately `answering` before the first morph
completes ends — after both timeouts fire — in `thinking`, not
`answering`. -/
theorem morphInFlightDrops :
    (∀ (s : NotchSM) (n : NotchState),
      isMorphing s = true → morphState n s = s) ∧
    (timerFire (timerFire (morphState .answering
        (morphState .thinking ⟨.dormant, .steady⟩)))).currentState
      = NotchState.thinking := by
  constructor
  · intro s n h
    simp [morphState, h]
  · decide

theorem morphInFlightDrops_witness :
    morphState NotchState.answering
        ⟨NotchState.dormant, MorphPhase.exitAnim NotchState.thinking⟩
      = ⟨NotchState.dormant, MorphPhase.exitAnim NotchState.thinking⟩ :=
  morphInFlightDrops.1
    ⟨NotchState.dormant, MorphPhase.exitAnim NotchState.thinking⟩
    NotchState.answering (by decide)

end Notch

namespace Main

/-- The filesystem visible to the `transcribe-audio` handler, as the list
of existing file paths. -/
structure Fs where
  files : List String
  deriving DecidableEq, Repr

/-- The result of awaiting `groq.audio.transcriptions.create`: either the
promise resolved with a response carrying a `text` field, or it
rejected. -/
inductive UploadOutcome where
  | response (text : String)
  | failed (msg : String)
  deriving DecidableEq, Repr

/-- The `transcribe-audio` IPC handler (main process, lines 289-349).
With the API key absent it throws before any file is written.  Otherwise
it writes the temporary file, performs the upload, and — only after a
resolved upload — unlinks the temporary file, then checks the response:
an empty `text` is falsy in the `transcriptionResponse.text` test and
raises the unexpected-format error (which the catch wraps a second time).
A rejected upload jumps straight to the catch, which rethrows without any
unlink. -/
def transcribeAudio (apiKeySet : Bool) (tempFilePath : String)
    (upload : UploadOutcome) (fs0 : Fs) : Fs × Except String String :=
  if apiKeySet = false then
    (fs0, .error "API Key not configured.")
  else
    match upload with
    | .failed msg =>
        (⟨tempFilePath :: fs0.files⟩,
         .error ("Transcription failed: " ++ msg))
    | .response text =>
        if text = "" then
          (⟨(tempFilePath :: fs0.files).erase tempFilePath⟩,
           .error ("Transcription failed: " ++
             "Transcription failed: Unexpected API response format."))
        else
          (⟨(tempFilePath :: fs0.files).erase tempFilePath⟩, .ok text)

/-- C1: the guaranteed-cleanup claim fails on the upload-error path.  On a
successful upload and on the unexpected-response-format path the temporary
file is deleted (the unlink precedes the format check), but when the
upload itself rejects, the handler rethrows from its catch block without
ever unlinking: the temporary file remains on the filesystem after that
failure. -/
theorem tempFileLeakOnUploadError :
    (transcribeAudio true "temp_audio_1.webm"
        (.response "hello") ⟨[]⟩).1.files = [] ∧
    (transcribeAudio true "temp_audio_1.webm"
        (.response "") ⟨[]⟩).1.files = [] ∧
    (transcribeAudio true "temp_audio_1.webm"
        (.failed "network error") ⟨[]⟩).1.files = ["temp_audio_1.webm"] ∧
    (transcribeAudio true "temp_audio_1.webm"
        (.failed "network error") ⟨[]⟩).2
      = Except.error "Transcription failed: network error" := by
  refine ⟨rfl, rfl, rfl, rfl⟩

end Main

end Seery
